import Mathlib

/-!
Verification of `scale-down-ecs-instances.py` (joeaawad/aws-scripts).

The script shrinks an ECS cluster: it reads the desired capacity of an Auto
Scaling Group, computes the required reduction, picks the oldest container
instances, drains them, and (intends to) terminate them while decrementing
the desired capacity.

We shallowly embed the script.  Remote AWS responses are inputs: each
`describe`/`list` call consumes a value supplied in a `World` record, and
each mutating call is recorded as an `Effect`.  Two genuine Python-level
name errors are part of the embedding because they are part of how the
code behaves:

* line 14 of the script calls `terminate_instances(instances)` but the only
  function defined is `terminate_instance`, so reaching that line raises
  NameError (name terminate_instances is not defined);
* line 83 calls `sleep(10)` but only `argparse` and `boto3` are imported,
  so the first time the drain loop fails to break it raises NameError
  (name sleep is not defined).
-/

namespace ScaleDown

/-- The fields of an Auto Scaling Group the script reads: only the
DesiredCapacity entry of the described group. -/
structure Asg where
  desiredCapacity : Int
  deriving Repr, DecidableEq

/-- The fields of an ECS container-instance description the script reads:
`registeredAt`, `ec2InstanceId` (in `get_instances_to_remove`) and
`runningTasksCount` (in the drain-poll loop).  `registeredAt` is a
timestamp, modelled as a natural number. -/
structure ContainerInstance where
  ec2InstanceId : String
  registeredAt : Nat
  runningTasksCount : Nat
  deriving Repr, DecidableEq

/-- Every distinct raise/termination site of the script. -/
inductive Err where
  /-- ValueError (Unable to find Auto Scaling Group), line 26. -/
  | notFound
  /-- ValueError (More than one Auto Scaling Group was found), line 28. -/
  | ambiguousName
  /-- ValueError (ASG ... has fewer than ... instances), lines 33-34. -/
  | underCapacity
  /-- NameError (name sleep is not defined), raised at `sleep(10)` on
  line 83: `sleep` is never imported. -/
  | nameErrorSleep
  /-- RuntimeError (Timed out waiting for instances to drain ...),
  lines 85-89 (the while/else clause). -/
  | drainTimeout
  /-- NameError (name terminate_instances is not defined), raised at
  line 14 of `main`: the defined function is `terminate_instance`. -/
  | nameErrorTerminateInstances
  /-- RuntimeError (Something went wrong and the ASG desired capacity does
  not match the desired value ...), lines 17-19 of `main`. -/
  | convergence
  /-- A non-success response from
  `terminate_instance_in_auto_scaling_group` for the given instance id,
  which propagates out of the `for` loop in `terminate_instance`. -/
  | terminateApiError (instanceId : String)
  deriving Repr, DecidableEq

/-- The mutating AWS calls the script can issue. -/
inductive Effect where
  /-- `ecs.update_container_instances_state(..., status="DRAINING")`,
  lines 63-67, for the given batch of instance ids. -/
  | setDrainState (instances : List String)
  /-- `autoscaling.terminate_instance_in_auto_scaling_group(InstanceId=id,
  ShouldDecrementDesiredCapacity=True)`, lines 95-98, one call per id. -/
  | terminateInstance (instanceId : String)
  deriving Repr, DecidableEq

/-- How a run of `main` can end: `exit()` (process status 0, from
`get_change` when the change is zero), a normal return from `main`
(also process status 0), or an uncaught exception. -/
inductive Outcome where
  | exitZero
  | doneNormal
  | error (e : Err)
  deriving Repr, DecidableEq

/-- Result of `get_change`: an uncaught exception, a successful `exit()`,
or the returned (necessarily positive) `desired_change`. -/
inductive GetChangeResult where
  | err (e : Err)
  | exitZero
  | change (c : Int)
  deriving Repr, DecidableEq

/-- `get_change` (lines 21-39).  `asgs` is the `AutoScalingGroups` list
returned by `describe_auto_scaling_groups` for the requested name. -/
def get_change (asgs : List Asg) (desired_count : Int) : GetChangeResult :=
  match asgs with
  | [] => .err .notFound
  | asg :: rest =>
    if rest.length > 0 then .err .ambiguousName
    else
      let desired_change := asg.desiredCapacity - desired_count
      if desired_change < 0 then .err .underCapacity
      else if desired_change = 0 then .exitZero
      else .change desired_change

/-- The sort-key comparison used on line 51: `sorted` over `raw_instances`
with the registeredAt field as key. -/
def regLE (a b : ContainerInstance) : Prop :=
  a.registeredAt ≤ b.registeredAt

instance : DecidableRel regLE := fun a b =>
  inferInstanceAs (Decidable (a.registeredAt ≤ b.registeredAt))

instance : IsTotal ContainerInstance regLE :=
  ⟨fun a b => Nat.le_total a.registeredAt b.registeredAt⟩

instance : IsTrans ContainerInstance regLE :=
  ⟨fun _ _ _ h h' => Nat.le_trans h h'⟩

/-- Python list slicing `l[:k]` for an `int` stop `k`: a non-negative stop
takes the first `k` elements (clamped at the length); a negative stop is
counted from the end, `l[:-m] = l[: len(l) - m]` (clamped at zero). -/
def pySliceTo (l : List α) (k : Int) : List α :=
  if 0 ≤ k then l.take k.toNat else l.take (l.length - (-k).toNat)

/-- The pure core of `get_instances_to_remove` (lines 41-58):
`raw_instances` is the `containerInstances` list returned by
`describe_container_instances` for the full cluster membership; the
function sorts it ascending by registeredAt (the Python builtin `sorted`
is a stable sort, as is `List.insertionSort`), slices off the first
`desired_change` entries and projects their `ec2InstanceId`s. -/
def get_instances_to_remove (raw_instances : List ContainerInstance)
    (desired_change : Int) : List String :=
  let sorted_instances := raw_instances.insertionSort regLE
  let instances_to_remove := pySliceTo sorted_instances desired_change
  instances_to_remove.map (fun i => i.ec2InstanceId)

/-- The `while retries > 0` poll loop of `drain_instances` (lines 69-89).
`polls k` is the `containerInstances` list returned by the `(k+1)`-st
`describe_container_instances` call of this run.  Body of the loop: if
every described instance has `runningTasksCount == 0`, `break` (success);
otherwise decrement `retries`, print, and call `sleep(10)` — which raises
`NameError` because `sleep` is not imported, so the recursive call that
the intended `drainLoop polls retries (k+1)` re-poll would make is never
reached.  The `else` clause of the `while` (retries exhausted) raises the
timeout `RuntimeError`. -/
def drainLoop (polls : Nat → List ContainerInstance) :
    Nat → Nat → Except Err Unit
  | 0, _ => .error .drainTimeout
  | _retries + 1, k =>
    if (polls k).all (fun i => i.runningTasksCount == 0) then
      .ok ()
    else
      .error .nameErrorSleep

/-- `drain_instances` (lines 60-89): issue the batch
`update_container_instances_state(..., DRAINING)` call (recorded as an
effect), then run the poll loop with a retry budget of 30. -/
def drain_instances (polls : Nat → List ContainerInstance)
    (instances : List String) : Except Err Unit × List Effect :=
  (drainLoop polls 30 0, [.setDrainState instances])

/-- `terminate_instance` (lines 91-98): one
`terminate_instance_in_auto_scaling_group` call per instance id, in list
order.  `api id = true` means the call succeeds; `api id = false` means it
raises, and the exception propagates out of the `for` loop at once, so the
remaining ids are never attempted.  The list records the calls issued
(the failing call included). -/
def terminate_instance (api : String → Bool) :
    List String → Except Err Unit × List Effect
  | [] => (.ok (), [])
  | id :: rest =>
    if api id then
      let r := terminate_instance api rest
      (r.1, .terminateInstance id :: r.2)
    else
      (.error (.terminateApiError id), [.terminateInstance id])

/-- The remote responses one run of `main` can consume, in program order. -/
structure World where
  /-- `AutoScalingGroups` from the `describe_auto_scaling_groups` call
  inside the first `get_change` (line 8). -/
  asgsFirst : List Asg
  /-- `containerInstances` from the `describe_container_instances` call
  inside `get_instances_to_remove` (line 10). -/
  rawInstances : List ContainerInstance
  /-- `containerInstances` from the k-th `describe_container_instances`
  call inside the drain poll loop (line 12). -/
  drainPolls : Nat → List ContainerInstance
  /-- `AutoScalingGroups` from the `describe_auto_scaling_groups` call
  inside the second `get_change` (line 16). -/
  asgsSecond : List Asg

/-- `main` (lines 7-19): compute the change, select instances, drain them,
then line 14 — `terminate_instances(instances)` — which raises `NameError`
(`terminate_instances` is not defined; the script defines
`terminate_instance`), so the verification on lines 16-19 is never
reached.  Returns the outcome and the mutating calls issued. -/
def main (w : World) (desired_count : Int) : Outcome × List Effect :=
  match get_change w.asgsFirst desired_count with
  | .err e => (.error e, [])
  | .exitZero => (.exitZero, [])
  | .change desired_change =>
    let instances := get_instances_to_remove w.rawInstances desired_change
    let drained := drain_instances w.drainPolls instances
    match drained.1 with
    | .error e => (.error e, drained.2)
    | .ok () => (.error .nameErrorTerminateInstances, drained.2)

/-- Lines 16-19 of `main` in isolation (the post-termination verification):
re-run `get_change` and raise the convergence `RuntimeError` if the
returned change is nonzero.  (In the script as written this fragment is
dead code — line 14 raises `NameError` first — but it is the fragment the
verification claims about lines 16-19 speak of.) -/
def verify_step (asgs : List Asg) (desired_count : Int) : Outcome :=
  match get_change asgs desired_count with
  | .err e => .error e
  | .exitZero => .exitZero
  | .change c => if c ≠ 0 then .error .convergence else .doneNormal

/-! ### Helper lemmas (shared across the claim theorems) -/

/-- `get_change` on the empty describe result. -/
theorem get_change_nil (d : Int) : get_change [] d = .err .notFound := rfl

/-- `get_change` when more than one group is described. -/
theorem get_change_multi (a b : Asg) (rest : List Asg) (d : Int) :
    get_change (a :: b :: rest) d = .err .ambiguousName := by
  simp [get_change]

/-- `get_change` when exactly one group is described, as the three-way
branch of lines 30-39. -/
theorem get_change_single (a : Asg) (d : Int) :
    get_change [a] d =
      (if a.desiredCapacity - d < 0 then .err .underCapacity
       else if a.desiredCapacity - d = 0 then .exitZero
       else .change (a.desiredCapacity - d)) := by
  simp [get_change]

/-- `get_change` exits with status zero only when exactly one group was
described and its desired capacity already equals the requested count. -/
theorem get_change_exitZero_inv {asgs : List Asg} {d : Int}
    (h : get_change asgs d = .exitZero) :
    ∃ a, asgs = [a] ∧ a.desiredCapacity = d := by
  match asgs with
  | [] => simp [get_change] at h
  | a :: b :: rest => rw [get_change_multi] at h; exact absurd h (by simp)
  | [a] =>
    refine ⟨a, rfl, ?_⟩
    rw [get_change_single] at h
    by_cases h1 : a.desiredCapacity - d < 0
    · rw [if_pos h1] at h; exact absurd h (by simp)
    · rw [if_neg h1] at h
      by_cases h2 : a.desiredCapacity - d = 0
      · omega
      · rw [if_neg h2] at h; exact absurd h (by simp)

/-- Unfolding of the drain poll loop at the initial retry budget of 30:
a single poll decides everything, because the re-poll can only be reached
through the `sleep(10)` call, which raises NameError. -/
theorem drainLoop_thirty (polls : Nat → List ContainerInstance) :
    drainLoop polls 30 0 =
      if (polls 0).all (fun i => i.runningTasksCount == 0) then .ok ()
      else .error .nameErrorSleep := rfl

/-! ### Claim theorems -/

/-- C7: when the current desired capacity already equals the requested
count, `get_change` prints, calls exit (process status 0), and `main`
issues no drain or terminate call: the effect list is empty. -/
theorem main_zero_change_clean_exit (w : World) (d : Int) (a : Asg)
    (h1 : w.asgsFirst = [a]) (h2 : a.desiredCapacity = d) :
    main w d = (.exitZero, []) := by
  simp [main, h1, get_change_single, h2]

/-- Witness for C7 at a concrete world: one group at capacity 4,
requested count 4. -/
theorem main_zero_change_clean_exit_witness :
    main ⟨[⟨4⟩], [], fun _ => [], []⟩ 4 = (.exitZero, []) :=
  main_zero_change_clean_exit ⟨[⟨4⟩], [], fun _ => [], []⟩ 4 ⟨4⟩ rfl rfl

/-- C6: when the requested count exceeds the current desired capacity
(negative reduction), `main` fails with the under-capacity ValueError of
lines 33-34 and issues no mutating call at all. -/
theorem main_under_capacity_no_mutation (w : World) (d : Int) (a : Asg)
    (h1 : w.asgsFirst = [a]) (h2 : a.desiredCapacity - d < 0) :
    main w d = (.error .underCapacity, []) := by
  simp [main, h1, get_change_single, h2]

/-- Witness for C6 at a concrete world: one group at capacity 1,
requested count 2. -/
theorem main_under_capacity_no_mutation_witness :
    main ⟨[⟨1⟩], [], fun _ => [], []⟩ 2 = (.error .underCapacity, []) :=
  main_under_capacity_no_mutation ⟨[⟨1⟩], [], fun _ => [], []⟩ 2 ⟨1⟩ rfl
    (by decide)

/-- C9: reading the desired capacity fails with the not-found ValueError
when zero groups match and with the more-than-one ValueError when several
match; in both cases `main` aborts with that error before issuing any
mutating call. -/
theorem get_change_name_resolution (w : World) (d : Int) :
    get_change [] d = .err .notFound
    ∧ (∀ (a b : Asg) (rest : List Asg),
        get_change (a :: b :: rest) d = .err .ambiguousName)
    ∧ (w.asgsFirst = [] → main w d = (.error .notFound, []))
    ∧ (∀ (a b : Asg) (rest : List Asg), w.asgsFirst = a :: b :: rest →
        main w d = (.error .ambiguousName, [])) := by
  refine ⟨rfl, fun a b rest => get_change_multi a b rest d, ?_, ?_⟩
  · intro h; simp [main, h, get_change_nil]
  · intro a b rest h; simp [main, h, get_change_multi]

/-- Witness for C9: a world with no matching group and a world with two
matching groups. -/
theorem get_change_name_resolution_witness :
    main ⟨[], [], fun _ => [], []⟩ 0 = (.error .notFound, [])
    ∧ main ⟨[⟨1⟩, ⟨2⟩], [], fun _ => [], []⟩ 0 = (.error .ambiguousName, []) :=
  ⟨(get_change_name_resolution ⟨[], [], fun _ => [], []⟩ 0).2.2.1 rfl,
   (get_change_name_resolution ⟨[⟨1⟩, ⟨2⟩], [], fun _ => [], []⟩ 0).2.2.2
     ⟨1⟩ ⟨2⟩ [] rfl⟩

/-- C10: the verification fragment of main (lines 16-19) raises the
convergence RuntimeError exactly when the residual current-minus-requested
is strictly positive; a zero residual makes `get_change` exit the process
successfully before the line-16 check, and a negative residual raises the
under-capacity ValueError instead. -/
theorem verify_step_trichotomy (a : Asg) (d : Int) :
    (verify_step [a] d = .error .convergence ↔ 0 < a.desiredCapacity - d)
    ∧ (verify_step [a] d = .exitZero ↔ a.desiredCapacity - d = 0)
    ∧ (verify_step [a] d = .error .underCapacity
        ↔ a.desiredCapacity - d < 0) := by
  have hg := get_change_single a d
  rcases lt_trichotomy (a.desiredCapacity - d) 0 with h | h | h
  · rw [if_pos h] at hg
    simp [verify_step, hg]
    omega
  · rw [if_neg (by omega), if_pos h] at hg
    simp [verify_step, hg]
    omega
  · rw [if_neg (by omega), if_neg (by omega)] at hg
    simp only [verify_step, hg]
    rw [if_pos (by omega : a.desiredCapacity - d ≠ 0)]
    simp
    omega

/-- C1: every run of main that terminates with process status 0 (the
exit() call or a normal return) leaves the desired capacity of the scaling
group equal to the requested count: success only ever happens through the
zero-change exit, where exactly one group was described with capacity
already equal to the requested count, and no mutating call has been
issued, so the remote capacity is unchanged. -/
theorem main_success_means_converged (w : World) (d : Int)
    (h : (main w d).1 = .exitZero ∨ (main w d).1 = .doneNormal) :
    (∃ a, w.asgsFirst = [a] ∧ a.desiredCapacity = d)
    ∧ (main w d).2 = [] := by
  rcases hgc : get_change w.asgsFirst d with e | _ | c
  · have hm : main w d = (.error e, []) := by simp [main, hgc]
    rw [hm] at h
    exact absurd h (by simp)
  · have hm : main w d = (.exitZero, []) := by simp [main, hgc]
    exact ⟨get_change_exitZero_inv hgc, by rw [hm]⟩
  · rcases hd : drainLoop w.drainPolls 30 0 with e | u
    · have hm : (main w d).1 = .error e := by
        simp [main, hgc, drain_instances, hd]
      rw [hm] at h
      exact absurd h (by simp)
    · have hm : (main w d).1 = .error .nameErrorTerminateInstances := by
        simp [main, hgc, drain_instances, hd]
      rw [hm] at h
      exact absurd h (by simp)

/-- Witness for C1: a successful run (one group at capacity 7, requested
count 7). -/
theorem main_success_means_converged_witness :
    (∃ a, (⟨[⟨7⟩], [], fun _ => [], []⟩ : World).asgsFirst = [a]
        ∧ a.desiredCapacity = 7)
    ∧ (main ⟨[⟨7⟩], [], fun _ => [], []⟩ 7).2 = [] :=
  main_success_means_converged ⟨[⟨7⟩], [], fun _ => [], []⟩ 7 (Or.inl rfl)

/-- C2: whenever the computed reduction is positive (get_change returns a
change) and the drain loop completes, main raises NameError at line 14 —
`terminate_instances` is undefined, only `terminate_instance` exists — so
no termination request is ever issued. -/
theorem main_raises_nameError_on_terminate (w : World) (d c : Int)
    (h1 : get_change w.asgsFirst d = .change c)
    (h2 : drainLoop w.drainPolls 30 0 = .ok ()) :
    (main w d).1 = .error .nameErrorTerminateInstances
    ∧ ∀ i, Effect.terminateInstance i ∉ (main w d).2 := by
  have hm : main w d = (.error .nameErrorTerminateInstances,
      [.setDrainState (get_instances_to_remove w.rawInstances c)]) := by
    simp [main, h1, drain_instances, h2]
  rw [hm]
  exact ⟨rfl, fun i => by simp⟩

/-- Witness for C2: one group at capacity 3, requested count 1 (reduction
2), an empty cluster so the first drain poll trivially reports all-zero. -/
theorem main_raises_nameError_on_terminate_witness :
    get_change ([⟨3⟩] : List Asg) 1 = .change 2
    ∧ drainLoop (fun _ => []) 30 0 = .ok ()
    ∧ (main ⟨[⟨3⟩], [], fun _ => [], []⟩ 1).1
        = .error .nameErrorTerminateInstances
    ∧ ∀ i, Effect.terminateInstance i
        ∉ (main ⟨[⟨3⟩], [], fun _ => [], []⟩ 1).2 :=
  ⟨rfl, rfl,
   (main_raises_nameError_on_terminate ⟨[⟨3⟩], [], fun _ => [], []⟩ 1 2
      rfl rfl).1,
   (main_raises_nameError_on_terminate ⟨[⟨3⟩], [], fun _ => [], []⟩ 1 2
      rfl rfl).2⟩

/-- C3: the drain poll loop is decided entirely by the first describe
call: it succeeds iff the first poll reports every instance at zero
running tasks, it raises NameError at sleep(10) otherwise (sleep is never
imported), and its result does not depend on any later poll, so the
30-attempt retry budget is never consumed. -/
theorem drain_decided_by_first_poll (polls : Nat → List ContainerInstance) :
    (drainLoop polls 30 0 = .ok ()
      ↔ (polls 0).all (fun i => i.runningTasksCount == 0) = true)
    ∧ ((polls 0).all (fun i => i.runningTasksCount == 0) = false →
        drainLoop polls 30 0 = .error .nameErrorSleep)
    ∧ (∀ polls_2 : Nat → List ContainerInstance, polls_2 0 = polls 0 →
        drainLoop polls_2 30 0 = drainLoop polls 30 0) := by
  refine ⟨?_, ?_, ?_⟩
  · rw [drainLoop_thirty]
    by_cases h : (polls 0).all (fun i => i.runningTasksCount == 0) = true
    · simp [h]
    · simp [h]
  · intro h
    rw [drainLoop_thirty, h]
    simp
  · intro polls_2 h
    rw [drainLoop_thirty, drainLoop_thirty, h]

/-- The drain polls used by the C3 witness: the single selected instance
still reports one running task on every describe. -/
def pollsBusy : Nat → List ContainerInstance := fun _ => [⟨"i-busy", 0, 1⟩]

/-- Witness for C3 at the concrete poll sequence `pollsBusy`. -/
theorem drain_decided_by_first_poll_witness :
    drainLoop pollsBusy 30 0 = .error .nameErrorSleep
    ∧ drainLoop pollsBusy 30 0 = drainLoop pollsBusy 30 0 :=
  ⟨(drain_decided_by_first_poll pollsBusy).2.1 rfl,
   (drain_decided_by_first_poll pollsBusy).2.2 pollsBusy rfl⟩

/-- The drain polls of the C4 failing input: a node that never drains
(one running task on every poll, the first included). -/
def pollsStuck : Nat → List ContainerInstance := fun _ => [⟨"i-stuck", 3, 1⟩]

/-- C4: on a node that never drains, the run does not end in the timeout
RuntimeError of lines 85-89 after 30 polls as the spec describes: it ends
in NameError on the very first failed poll, because sleep(10) on line 83
refers to a name that is never imported.  The timeout error is
unreachable. -/
theorem drain_stuck_raises_nameError_not_timeout :
    drainLoop pollsStuck 30 0 = .error .nameErrorSleep
    ∧ drainLoop pollsStuck 30 0 ≠ .error .drainTimeout := by
  refine ⟨rfl, ?_⟩
  intro h
  rw [drainLoop_thirty] at h
  simp [pollsStuck] at h

/-- C5: the pure selection core returns exactly min(k, number of nodes)
identifiers — the identifiers of the first k entries of the membership
list sorted ascending by registeredAt (oldest first) — it is deterministic
for identical inputs, and when k is at least the number of available nodes
it returns the identifiers of all of them. -/
theorem get_instances_to_remove_spec (raw : List ContainerInstance)
    (k : Nat) :
    get_instances_to_remove raw (k : Int)
      = ((raw.insertionSort regLE).take k).map (fun i => i.ec2InstanceId)
    ∧ (get_instances_to_remove raw (k : Int)).length = min k raw.length
    ∧ List.Sorted regLE ((raw.insertionSort regLE).take k)
    ∧ (raw.insertionSort regLE).Perm raw
    ∧ (∀ (raw_2 : List ContainerInstance) (k_2 : Int),
        raw_2 = raw → k_2 = (k : Int) →
        get_instances_to_remove raw_2 k_2
          = get_instances_to_remove raw (k : Int))
    ∧ (raw.length ≤ k →
        (get_instances_to_remove raw (k : Int)).Perm
          (raw.map (fun i => i.ec2InstanceId))) := by
  have heq : get_instances_to_remove raw (k : Int)
      = ((raw.insertionSort regLE).take k).map (fun i => i.ec2InstanceId) := by
    simp [get_instances_to_remove, pySliceTo, Int.natCast_nonneg,
      Int.toNat_natCast]
  refine ⟨heq, ?_, ?_, List.perm_insertionSort regLE raw, ?_, ?_⟩
  · rw [heq]
    simp [List.length_take, List.length_insertionSort]
  · exact List.Pairwise.sublist (List.take_sublist k _)
      (List.sorted_insertionSort regLE raw)
  · intro raw_2 k_2 h1 h2
    rw [h1, h2]
  · intro hk
    rw [heq, List.take_of_length_le (by rw [List.length_insertionSort]; exact hk)]
    exact (List.perm_insertionSort regLE raw).map _

/-- Concrete fleet for the C5 witness: instances registered at times 1, 2
and 3, listed out of registration order. -/
def exFleet : List ContainerInstance :=
  [⟨"i-new", 3, 0⟩, ⟨"i-old", 1, 0⟩, ⟨"i-mid", 2, 4⟩]

/-- Sanity check mirroring the example of the spec: with reduction 2, the
two oldest-registered instances are selected, oldest first. -/
theorem get_instances_to_remove_exFleet :
    get_instances_to_remove exFleet 2 = ["i-old", "i-mid"] := by decide

/-- Witness for C5 at the concrete fleet `exFleet` with k = 4 (more than
the 3 available nodes). -/
theorem get_instances_to_remove_spec_witness :
    get_instances_to_remove exFleet ((4 : Nat) : Int)
      = get_instances_to_remove exFleet ((4 : Nat) : Int)
    ∧ (get_instances_to_remove exFleet ((4 : Nat) : Int)).Perm
        (exFleet.map (fun i => i.ec2InstanceId)) :=
  ⟨(get_instances_to_remove_spec exFleet 4).2.2.2.2.1 exFleet
      ((4 : Nat) : Int) rfl rfl,
   (get_instances_to_remove_spec exFleet 4).2.2.2.2.2 (by decide)⟩

/-- The terminate API oracle used by the C8 counterexample and witness:
the call for instance i-a fails, every other call succeeds. -/
def apiFailsOnA : String → Bool := fun id => !(id == "i-a")

/-- C8 counterexample: with two drained instances where the termination
call for the first one fails, the for loop of terminate_instance stops at
the failure — the second instance is never attempted — so a failure on one
node does abort processing of the remaining nodes, and nothing is
collected: the exception propagates at once. -/
theorem terminate_failure_aborts_rest :
    terminate_instance apiFailsOnA ["i-a", "i-b"]
      = (.error (.terminateApiError "i-a"), [.terminateInstance "i-a"])
    ∧ Effect.terminateInstance "i-b"
        ∉ (terminate_instance apiFailsOnA ["i-a", "i-b"]).2 := by
  refine ⟨rfl, ?_⟩
  decide

/-- C8 (amended): terminate_instance processes instances sequentially and
fail-fast: when every id before x succeeds and the call for x raises, the
loop issues exactly the calls for the prefix and for x, the error
propagates immediately, and the ids after x are never attempted. -/
theorem terminate_sequential_fail_fast (api : String → Bool)
    (pre : List String) (x : String) (post : List String)
    (hpre : ∀ id ∈ pre, api id = true) (hx : api x = false) :
    terminate_instance api (pre ++ x :: post)
      = (.error (.terminateApiError x),
         (pre ++ [x]).map Effect.terminateInstance) := by
  induction pre with
  | nil => simp [terminate_instance, hx]
  | cons a rest ih =>
    have ha : api a = true := hpre a (by simp)
    have hrest : ∀ id ∈ rest, api id = true :=
      fun id hid => hpre id (by simp [hid])
    simp [terminate_instance, ha, ih hrest]

/-- Witness for the amended C8 at a concrete run: the call for i-0
succeeds, the call for i-a fails, and i-b is never attempted. -/
theorem terminate_sequential_fail_fast_witness :
    (∀ id ∈ ["i-0"], apiFailsOnA id = true)
    ∧ apiFailsOnA "i-a" = false
    ∧ terminate_instance apiFailsOnA (["i-0"] ++ "i-a" :: ["i-b"])
      = (.error (.terminateApiError "i-a"),
         (["i-0"] ++ ["i-a"]).map Effect.terminateInstance) :=
  ⟨by decide, by decide,
   terminate_sequential_fail_fast apiFailsOnA ["i-0"] "i-a" ["i-b"]
     (by decide) (by decide)⟩

end ScaleDown
